import Mathlib

/-!
Verification of the indicator-computation and signal-decision engine of the
crypto-trading-signals repository (`trading_logic.py`).

The pandas float columns are modelled by the type `Val`:
IEEE-style `nan`, `inf` (positive infinity), `ninf` (negative infinity) and
exact rationals `num q` standing for the finite floats.  Arithmetic and
comparisons follow IEEE/numpy semantics on these values: any operation on
`nan` yields `nan`, comparisons involving `nan` are false, a positive finite
value divided by zero yields `inf`, and `0/0` yields `nan`.

pandas behaviours reproduced by the embedding:
* `Series.diff()` puts NaN at index 0, `x[i] - x[i-1]` afterwards;
* `s.where(cond, 0)` replaces entries where `cond` is False by 0, and a
  comparison `NaN > 0` (or `NaN < 0`) is False, so the masked gain/loss
  series carry 0 (not NaN) at index 0;
* `rolling(window=w).mean()` (default `min_periods = w`) is NaN whenever the
  trailing window holds fewer than `w` values or any of them is NaN,
  otherwise the arithmetic mean of the `w` window values;
* `ewm(span=p, adjust=False).mean()` is the recurrence `y[0] = x[0]`,
  `y[i] = x[i]*a + y[i-1]*(1-a)` with `a = 2/(p+1)`;
* `Series.get(label, default)` yields the default when the label is absent,
  and `pd.isna` is true exactly on missing values (`None`) and NaN — not on
  infinities.
-/

namespace Trading

/-- A pandas cell value: NaN, plus/minus infinity, or a finite number
(modelled exactly as a rational). -/
inductive Val where
  | nan : Val
  | inf : Val
  | ninf : Val
  | num : ℚ → Val
deriving DecidableEq, Repr

namespace Val

/-- The `pd.isna` predicate: true on NaN only (infinities are not na). -/
def isna : Val → Bool
  | nan => true
  | _ => false

/-- IEEE negation. -/
def neg : Val → Val
  | nan => nan
  | inf => ninf
  | ninf => inf
  | num q => num (-q)

/-- IEEE addition. -/
def add : Val → Val → Val
  | nan, _ => nan
  | _, nan => nan
  | inf, ninf => nan
  | ninf, inf => nan
  | inf, _ => inf
  | _, inf => inf
  | ninf, _ => ninf
  | _, ninf => ninf
  | num a, num b => num (a + b)

/-- IEEE subtraction. -/
def sub (a b : Val) : Val := add a (neg b)

/-- IEEE absolute value. -/
def vabs : Val → Val
  | nan => nan
  | inf => inf
  | ninf => inf
  | num q => num |q|

/-- IEEE division (numpy semantics: `x/0 = ±inf` for finite `x ≠ 0`,
`0/0 = nan`, `x/±inf = 0` for finite `x`). -/
def div : Val → Val → Val
  | nan, _ => nan
  | _, nan => nan
  | inf, inf => nan
  | inf, ninf => nan
  | ninf, inf => nan
  | ninf, ninf => nan
  | inf, num b => if b < 0 then ninf else inf
  | ninf, num b => if b < 0 then inf else ninf
  | num _, inf => num 0
  | num _, ninf => num 0
  | num a, num b =>
    if b = 0 then (if a = 0 then nan else if 0 < a then inf else ninf)
    else num (a / b)

/-- IEEE strict less-than (false whenever an operand is NaN). -/
def blt : Val → Val → Bool
  | nan, _ => false
  | _, nan => false
  | ninf, ninf => false
  | ninf, _ => true
  | _, ninf => false
  | inf, _ => false
  | num _, inf => true
  | num a, num b => decide (a < b)

@[simp] theorem blt_num (a b : ℚ) : blt (num a) (num b) = decide (a < b) := rfl

@[simp] theorem isna_num (q : ℚ) : isna (num q) = false := rfl

@[simp] theorem add_nan_left (v : Val) : add nan v = nan := by cases v <;> rfl

@[simp] theorem add_nan_right (v : Val) : add v nan = nan := by cases v <;> rfl

@[simp] theorem div_nan_left (v : Val) : div nan v = nan := by cases v <;> rfl

@[simp] theorem div_nan_right (v : Val) : div v nan = nan := by cases v <;> rfl

@[simp] theorem neg_nan : neg nan = nan := rfl

@[simp] theorem sub_nan_right (v : Val) : sub v nan = nan := by
  show add v (neg nan) = nan
  rw [neg_nan, add_nan_right]

@[simp] theorem sub_num (a b : ℚ) : sub (num a) (num b) = num (a - b) := by
  show num (a + -b) = num (a - b)
  rw [← sub_eq_add_neg]

@[simp] theorem add_num (a b : ℚ) : add (num a) (num b) = num (a + b) := rfl

end Val

open Val

/-- The three signal classes: BUY (`"🟢 SINAL DE COMPRA"`),
SELL (`"🔴 SINAL DE VENDA"`), HOLD (`"🟡 AGUARDAR"`). -/
inductive Signal where
  | buy : Signal
  | sell : Signal
  | hold : Signal
deriving DecidableEq, Repr

/-- The buy-branch condition of `TradingAnalyzer._determine_signal`:
`rsi > 45 and rsi < 75 and macd_valor > sinal_macd and ema9 > ema21 and
(macd_valor - sinal_macd) > 0.001`. -/
def buy_cond (rsi macd_valor sinal_macd ema9 ema21 : Val) : Bool :=
  blt (num 45) rsi && blt rsi (num 75) &&
  blt sinal_macd macd_valor && blt ema21 ema9 &&
  blt (num (1/1000)) (sub macd_valor sinal_macd)

/-- The sell-branch condition of `TradingAnalyzer._determine_signal`:
`rsi < 55 and rsi > 25 and macd_valor < sinal_macd and ema9 < ema21 and
(sinal_macd - macd_valor) > 0.001`. -/
def sell_cond (rsi macd_valor sinal_macd ema9 ema21 : Val) : Bool :=
  blt rsi (num 55) && blt (num 25) rsi &&
  blt macd_valor sinal_macd && blt ema9 ema21 &&
  blt (num (1/1000)) (sub sinal_macd macd_valor)

/-- Embedding of `TradingAnalyzer._determine_signal`: first matching rule wins,
otherwise HOLD. -/
def determine_signal (rsi macd_valor sinal_macd ema9 ema21 : Val) : Signal :=
  if buy_cond rsi macd_valor sinal_macd ema9 ema21 then .buy
  else if sell_cond rsi macd_valor sinal_macd ema9 ema21 then .sell
  else .hold

/-- On finite numeric inputs the buy condition is the conjunction of the
five comparisons of the source. -/
theorem buy_cond_num_iff (r m s a b : ℚ) :
    buy_cond (num r) (num m) (num s) (num a) (num b) = true ↔
      (45 < r ∧ r < 75 ∧ s < m ∧ b < a ∧ 1/1000 < m - s) := by
  simp [buy_cond, and_assoc]

/-- On finite numeric inputs the sell condition is the conjunction of the
five comparisons of the source. -/
theorem sell_cond_num_iff (r m s a b : ℚ) :
    sell_cond (num r) (num m) (num s) (num a) (num b) = true ↔
      (r < 55 ∧ 25 < r ∧ m < s ∧ a < b ∧ 1/1000 < s - m) := by
  simp [sell_cond, and_assoc]

/-- The function `_determine_signal` returns BUY exactly when the buy branch fires. -/
theorem determine_eq_buy_iff (v1 v2 v3 v4 v5 : Val) :
    determine_signal v1 v2 v3 v4 v5 = .buy ↔ buy_cond v1 v2 v3 v4 v5 = true := by
  unfold determine_signal
  cases hB : buy_cond v1 v2 v3 v4 v5 <;> cases hS : sell_cond v1 v2 v3 v4 v5 <;> simp

/-- The function `_determine_signal` returns SELL exactly when the buy branch does not
fire and the sell branch does. -/
theorem determine_eq_sell_iff (v1 v2 v3 v4 v5 : Val) :
    determine_signal v1 v2 v3 v4 v5 = .sell ↔
      (buy_cond v1 v2 v3 v4 v5 = false ∧ sell_cond v1 v2 v3 v4 v5 = true) := by
  unfold determine_signal
  cases hB : buy_cond v1 v2 v3 v4 v5 <;> cases hS : sell_cond v1 v2 v3 v4 v5 <;> simp

/-- The function `_determine_signal` returns HOLD exactly when neither branch fires. -/
theorem determine_eq_hold_iff (v1 v2 v3 v4 v5 : Val) :
    determine_signal v1 v2 v3 v4 v5 = .hold ↔
      (buy_cond v1 v2 v3 v4 v5 = false ∧ sell_cond v1 v2 v3 v4 v5 = false) := by
  unfold determine_signal
  cases hB : buy_cond v1 v2 v3 v4 v5 <;> cases hS : sell_cond v1 v2 v3 v4 v5 <;> simp

/-- C1: on non-null numeric inputs, `_determine_signal` returns BUY iff
`45 < rsi < 75`, `macd > macd_signal`, `ema_short > ema_long` and
`macd - macd_signal > 0.001`; otherwise SELL iff `25 < rsi < 55`,
`macd < macd_signal`, `ema_short < ema_long` and
`macd_signal - macd > 0.001`; otherwise HOLD (rules in that order, first
match wins).  In particular rsi=50, macd=1.0, macd_signal=0.9995 yields
HOLD whatever the EMAs, because the difference 0.0005 does not exceed the
0.001 momentum threshold. -/
theorem determine_signal_rule (r m s a b : ℚ) :
    (determine_signal (num r) (num m) (num s) (num a) (num b) = .buy ↔
      (45 < r ∧ r < 75 ∧ s < m ∧ b < a ∧ 1/1000 < m - s)) ∧
    (determine_signal (num r) (num m) (num s) (num a) (num b) = .sell ↔
      (¬(45 < r ∧ r < 75 ∧ s < m ∧ b < a ∧ 1/1000 < m - s) ∧
        (r < 55 ∧ 25 < r ∧ m < s ∧ a < b ∧ 1/1000 < s - m))) ∧
    (determine_signal (num r) (num m) (num s) (num a) (num b) = .hold ↔
      (¬(45 < r ∧ r < 75 ∧ s < m ∧ b < a ∧ 1/1000 < m - s) ∧
        ¬(r < 55 ∧ 25 < r ∧ m < s ∧ a < b ∧ 1/1000 < s - m))) ∧
    determine_signal (num 50) (num 1) (num (9995/10000)) (num a) (num b) = .hold := by
  refine ⟨?_, ?_, ?_, ?_⟩
  · exact (determine_eq_buy_iff _ _ _ _ _).trans (buy_cond_num_iff r m s a b)
  · exact (determine_eq_sell_iff _ _ _ _ _).trans
      (and_congr (Bool.eq_false_iff.trans (not_congr (buy_cond_num_iff r m s a b)))
        (sell_cond_num_iff r m s a b))
  · exact (determine_eq_hold_iff _ _ _ _ _).trans
      (and_congr (Bool.eq_false_iff.trans (not_congr (buy_cond_num_iff r m s a b)))
        (Bool.eq_false_iff.trans (not_congr (sell_cond_num_iff r m s a b))))
  · have hB : buy_cond (num 50) (num 1) (num (9995/10000)) (num a) (num b) = false := by
      simp only [buy_cond, blt_num, sub_num]
      norm_num
    have hS : sell_cond (num 50) (num 1) (num (9995/10000)) (num a) (num b) = false := by
      simp only [sell_cond, blt_num, sub_num]
      norm_num
    rw [determine_signal, hB, hS]
    rfl

/-- C5: the BUY predicate and the SELL predicate of the decision rule are
never simultaneously satisfied (they demand opposite MACD crossovers), and
any input satisfying neither resolves to HOLD. -/
theorem buy_sell_exclusive (r m s a b : ℚ) :
    (¬((45 < r ∧ r < 75 ∧ s < m ∧ b < a ∧ 1/1000 < m - s) ∧
        (r < 55 ∧ 25 < r ∧ m < s ∧ a < b ∧ 1/1000 < s - m))) ∧
    (¬(45 < r ∧ r < 75 ∧ s < m ∧ b < a ∧ 1/1000 < m - s) →
      ¬(r < 55 ∧ 25 < r ∧ m < s ∧ a < b ∧ 1/1000 < s - m) →
      determine_signal (num r) (num m) (num s) (num a) (num b) = .hold) := by
  constructor
  · rintro ⟨⟨_, _, h1, _, _⟩, ⟨_, _, h2, _, _⟩⟩
    exact absurd h2 (lt_asymm h1)
  · intro hnP hnQ
    have hB : buy_cond (num r) (num m) (num s) (num a) (num b) = false :=
      Bool.eq_false_iff.mpr (fun h => hnP ((buy_cond_num_iff r m s a b).mp h))
    have hS : sell_cond (num r) (num m) (num s) (num a) (num b) = false :=
      Bool.eq_false_iff.mpr (fun h => hnQ ((sell_cond_num_iff r m s a b).mp h))
    simp [determine_signal, hB, hS]

/-- Witness for C5 at the concrete input (50, 0, 0, 0, 0). -/
theorem buy_sell_exclusive_witness :
    determine_signal (num 50) (num 0) (num 0) (num 0) (num 0) = .hold :=
  (buy_sell_exclusive 50 0 0 0 0).2 (by decide) (by decide)

/-- The tail of `ewm(span, adjust=False).mean()`: given the previous output
`prev`, emits `x*a + prev*(1-a)` for each remaining input. -/
def emaAux (a : ℚ) : ℚ → List ℚ → List ℚ
  | _, [] => []
  | prev, x :: rest => (x * a + prev * (1 - a)) :: emaAux a (x * a + prev * (1 - a)) rest

/-- Embedding of `TradingAnalyzer._calculate_ema`:
`prices.ewm(span=period, adjust=False).mean()` — the first output equals the
first price, then `y[i] = x[i]*a + y[i-1]*(1-a)` with `a = 2/(period+1)`. -/
def calculate_ema (prices : List ℚ) (period : ℕ) : List ℚ :=
  match prices with
  | [] => []
  | x :: rest => x :: emaAux (2 / (period + 1)) x rest

theorem length_emaAux (a : ℚ) (prev : ℚ) (xs : List ℚ) :
    (emaAux a prev xs).length = xs.length := by
  induction xs generalizing prev with
  | nil => rfl
  | cons x rest ih => simp [emaAux, ih]

theorem length_calculate_ema (prices : List ℚ) (period : ℕ) :
    (calculate_ema prices period).length = prices.length := by
  cases prices with
  | nil => rfl
  | cons x rest => simp [calculate_ema, length_emaAux]

theorem emaAux_getD (a : ℚ) (xs : List ℚ) (prev : ℚ) (i : ℕ) (hi : i < xs.length) :
    (emaAux a prev xs).getD i 0 =
      xs.getD i 0 * a + ((prev :: emaAux a prev xs).getD i 0) * (1 - a) := by
  induction xs generalizing prev i with
  | nil => simp at hi
  | cons x rest ih =>
    cases i with
    | zero => simp [emaAux]
    | succ j =>
      have hj : j < rest.length := by simpa using hi
      simpa [emaAux] using ih (x * a + prev * (1 - a)) j hj

theorem getD_replicate_of_lt (v : ℚ) : ∀ n i, i < n → (List.replicate n v).getD i 0 = v := by
  intro n
  induction n with
  | zero => intro i hi; simp at hi
  | succ m ih =>
    intro i hi
    cases i with
    | zero => simp [List.replicate]
    | succ j => simpa [List.replicate] using ih j (by omega)

theorem emaAux_const (a : ℚ) (v : ℚ) (n : ℕ) :
    emaAux a v (List.replicate n v) = List.replicate n v := by
  induction n with
  | zero => rfl
  | succ m ih =>
    have hv : v * a + v * (1 - a) = v := by ring
    simp [List.replicate, emaAux, hv, ih]

/-- C4: for a non-empty price series and period ≥ 1, the EMA satisfies
`ema[0] = close[0]` and `ema[i] = close[i]*a + ema[i-1]*(1-a)` with
`a = 2/(p+1)` (adjust-free seeding, no warm-up); consequently a constant
series of value v has EMA identically v. -/
theorem calculate_ema_recurrence (prices : List ℚ) (p : ℕ)
    (hp : 1 ≤ p) (hne : prices ≠ []) :
    (calculate_ema prices p).getD 0 0 = prices.getD 0 0 ∧
    (∀ i, i + 1 < prices.length →
      (calculate_ema prices p).getD (i + 1) 0 =
        prices.getD (i + 1) 0 * (2 / (p + 1)) +
          (calculate_ema prices p).getD i 0 * (1 - 2 / (p + 1))) ∧
    (∀ (v : ℚ) (n i : ℕ), i < n →
      (calculate_ema (List.replicate n v) p).getD i 0 = v) := by
  refine ⟨?_, ?_, ?_⟩
  · cases prices with
    | nil => exact absurd rfl hne
    | cons x rest => simp [calculate_ema]
  · intro i hi
    cases prices with
    | nil => simp at hi
    | cons x rest =>
      have hi' : i < rest.length := by simpa using hi
      simpa [calculate_ema] using emaAux_getD (2 / (p + 1)) rest x i hi'
  · intro v n i hin
    cases n with
    | zero => simp at hin
    | succ m =>
      have hrep : calculate_ema (List.replicate (m + 1) v) p = List.replicate (m + 1) v := by
        simp [List.replicate, calculate_ema, emaAux_const]
      rw [hrep]
      exact getD_replicate_of_lt v (m + 1) i hin

/-- Witness for C4 on the series [1, 2] with period 9, and the constant
series of value 7. -/
theorem calculate_ema_recurrence_witness :
    (calculate_ema [(1 : ℚ), 2] 9).getD 0 0 = ([(1 : ℚ), 2]).getD 0 0 ∧
    (calculate_ema [(1 : ℚ), 2] 9).getD (0 + 1) 0 =
      ([(1 : ℚ), 2]).getD (0 + 1) 0 * (2 / ((9 : ℕ) + 1)) +
        (calculate_ema [(1 : ℚ), 2] 9).getD 0 0 * (1 - 2 / ((9 : ℕ) + 1)) ∧
    (calculate_ema (List.replicate 4 (7 : ℚ)) 9).getD 2 0 = 7 := by
  obtain ⟨h1, h2, h3⟩ := calculate_ema_recurrence [(1 : ℚ), 2] 9 (by norm_num) (by simp)
  exact ⟨h1, h2 0 (by norm_num), h3 7 4 2 (by norm_num)⟩

/-- Pointwise description of `List.zipWith` through `getD`. -/
theorem getD_zipWith {α β γ : Type} (f : α → β → γ) (as : List α) (bs : List β)
    (i : ℕ) (da : α) (db : β) (dc : γ) (ha : i < as.length) (hb : i < bs.length) :
    (List.zipWith f as bs).getD i dc = f (as.getD i da) (bs.getD i db) := by
  induction as generalizing bs i with
  | nil => simp at ha
  | cons x rest ih =>
    cases bs with
    | nil => simp at hb
    | cons y rbs =>
      cases i with
      | zero => simp
      | succ j => simpa using ih rbs j (by simpa using ha) (by simpa using hb)

/-- Pointwise description of `List.map` through `getD`. -/
theorem getD_map {α β : Type} (f : α → β) (l : List α) (i : ℕ) (da : α) (db : β)
    (hi : i < l.length) :
    (l.map f).getD i db = f (l.getD i da) := by
  induction l generalizing i with
  | nil => simp at hi
  | cons x rest ih =>
    cases i with
    | zero => simp
    | succ j => simpa using ih j (by simpa using hi)

/-- Embedding of `TradingAnalyzer._calculate_macd`: `macd_line = EMA(fast) - EMA(slow)`,
`signal_line = EMA(macd_line, signal)`, `histogram = macd_line - signal_line`,
returned in that order. -/
def calculate_macd (prices : List ℚ) (fast slow sp : ℕ) :
    List ℚ × List ℚ × List ℚ :=
  let ema_fast := calculate_ema prices fast
  let ema_slow := calculate_ema prices slow
  let macd_line := List.zipWith (fun x y => x - y) ema_fast ema_slow
  let signal_line := calculate_ema macd_line sp
  let histogram := List.zipWith (fun x y => x - y) macd_line signal_line
  (macd_line, signal_line, histogram)

theorem length_macd_line (prices : List ℚ) (fast slow sp : ℕ) :
    (calculate_macd prices fast slow sp).1.length = prices.length := by
  simp [calculate_macd, List.length_zipWith, length_calculate_ema]

theorem length_signal_line (prices : List ℚ) (fast slow sp : ℕ) :
    (calculate_macd prices fast slow sp).2.1.length = prices.length := by
  simp [calculate_macd, length_calculate_ema, List.length_zipWith]

/-- C8: at every index of the input series, the MACD histogram equals
macd_line minus signal_line, where macd_line is EMA(fast) − EMA(slow)
pointwise and signal_line is the EMA of the macd_line series (same
recurrence and seeding as the price EMA). -/
theorem macd_histogram_eq (prices : List ℚ) (fast slow sp i : ℕ)
    (hi : i < prices.length) :
    (calculate_macd prices fast slow sp).1 =
      List.zipWith (fun x y => x - y)
        (calculate_ema prices fast) (calculate_ema prices slow) ∧
    (calculate_macd prices fast slow sp).2.1 =
      calculate_ema (calculate_macd prices fast slow sp).1 sp ∧
    (calculate_macd prices fast slow sp).2.2.getD i 0 =
      (calculate_macd prices fast slow sp).1.getD i 0 -
        (calculate_macd prices fast slow sp).2.1.getD i 0 := by
  refine ⟨rfl, rfl, ?_⟩
  have h1 : i < (calculate_macd prices fast slow sp).1.length := by
    rw [length_macd_line]; exact hi
  have h2 : i < (calculate_macd prices fast slow sp).2.1.length := by
    rw [length_signal_line]; exact hi
  exact getD_zipWith (fun x y => x - y) _ _ i 0 0 0 h1 h2

/-- Witness for C8 at the series [1, 2, 3] with the default periods, index 2. -/
theorem macd_histogram_eq_witness :
    (2 : ℕ) < ([(1 : ℚ), 2, 3]).length ∧
    (calculate_macd [(1 : ℚ), 2, 3] 12 26 9).2.2.getD 2 0 =
      (calculate_macd [(1 : ℚ), 2, 3] 12 26 9).1.getD 2 0 -
        (calculate_macd [(1 : ℚ), 2, 3] 12 26 9).2.1.getD 2 0 :=
  ⟨by norm_num, (macd_histogram_eq [(1 : ℚ), 2, 3] 12 26 9 2 (by norm_num)).2.2⟩

/-- The pandas `Series.diff()`: NaN at index 0, `x[i] - x[i-1]` afterwards. -/
def diff (xs : List Val) : List Val :=
  match xs with
  | [] => []
  | _ :: tail => Val.nan :: List.zipWith Val.sub tail xs

/-- The trailing window of size `w` ending at index `i` (the last
`min (i+1) w` elements up to `i`). -/
def windowVals (w : ℕ) (xs : List Val) (i : ℕ) : List Val :=
  (xs.take (i + 1)).drop (i + 1 - w)

/-- The pandas `rolling(window=w).mean()` with the default `min_periods = w`: NaN while
the trailing window holds fewer than `w` values or any of them is NaN,
otherwise the mean of the `w` window values. -/
def rollingMean (w : ℕ) (xs : List Val) : List Val :=
  (List.range xs.length).map (fun i =>
    if i + 1 < w then Val.nan
    else if (windowVals w xs i).any Val.isna then Val.nan
    else Val.div ((windowVals w xs i).foldr Val.add (num 0)) (num (w : ℚ)))

/-- The `gain` series of `TradingAnalyzer._calculate_rsi`:
`(delta.where(delta > 0, 0)).rolling(window=period).mean()`.  The masked
entry is 0 wherever `delta > 0` is False — including at the NaN delta of
index 0, since a NaN comparison is False. -/
def rsi_gain (prices : List ℚ) (period : ℕ) : List Val :=
  rollingMean period
    ((diff (prices.map num)).map (fun d => if blt (num 0) d then d else num 0))

/-- The `loss` series of `TradingAnalyzer._calculate_rsi`:
`(-delta.where(delta < 0, 0)).rolling(window=period).mean()`. -/
def rsi_loss (prices : List ℚ) (period : ℕ) : List Val :=
  rollingMean period
    ((diff (prices.map num)).map (fun d => if blt d (num 0) then Val.neg d else num 0))

/-- Embedding of `TradingAnalyzer._calculate_rsi`: `rs = gain / loss`,
`rsi = 100 - (100 / (1 + rs))`, elementwise with IEEE semantics. -/
def calculate_rsi (prices : List ℚ) (period : ℕ) : List Val :=
  (List.zipWith Val.div (rsi_gain prices period) (rsi_loss prices period)).map
    (fun rs => Val.sub (num 100) (Val.div (num 100) (Val.add (num 1) rs)))

theorem length_diff (xs : List Val) : (diff xs).length = xs.length := by
  cases xs with
  | nil => rfl
  | cons x tail => simp [diff, List.length_zipWith]

theorem length_rollingMean (w : ℕ) (xs : List Val) :
    (rollingMean w xs).length = xs.length := by
  simp [rollingMean]

theorem length_rsi_gain (prices : List ℚ) (period : ℕ) :
    (rsi_gain prices period).length = prices.length := by
  simp [rsi_gain, length_rollingMean, length_diff]

theorem length_rsi_loss (prices : List ℚ) (period : ℕ) :
    (rsi_loss prices period).length = prices.length := by
  simp [rsi_loss, length_rollingMean, length_diff]

theorem getD_range_map {α : Type} (f : ℕ → α) (n i : ℕ) (d : α) (hi : i < n) :
    ((List.range n).map f).getD i d = f i := by
  have h := getD_map f (List.range n) i 0 d (by simpa using hi)
  rw [h, List.getD_eq_getElem?_getD, List.getElem?_range hi]
  rfl

/-- Pointwise description of the rolling mean at an in-range index. -/
theorem rollingMean_getD (w : ℕ) (xs : List Val) (i : ℕ) (hi : i < xs.length) :
    (rollingMean w xs).getD i Val.nan =
      (if i + 1 < w then Val.nan
       else if (windowVals w xs i).any Val.isna then Val.nan
       else Val.div ((windowVals w xs i).foldr Val.add (num 0)) (num (w : ℚ))) := by
  unfold rollingMean
  exact getD_range_map _ xs.length i Val.nan hi

/-- Pointwise description of the RSI column at an in-range index. -/
theorem calculate_rsi_getD (prices : List ℚ) (period i : ℕ) (hi : i < prices.length) :
    (calculate_rsi prices period).getD i Val.nan =
      Val.sub (num 100) (Val.div (num 100) (Val.add (num 1)
        (Val.div ((rsi_gain prices period).getD i Val.nan)
          ((rsi_loss prices period).getD i Val.nan)))) := by
  unfold calculate_rsi
  have hg : i < (rsi_gain prices period).length := by rw [length_rsi_gain]; exact hi
  have hl : i < (rsi_loss prices period).length := by rw [length_rsi_loss]; exact hi
  have hz : i < (List.zipWith Val.div (rsi_gain prices period) (rsi_loss prices period)).length := by
    rw [List.length_zipWith]; omega
  rw [getD_map _ _ i Val.nan Val.nan hz,
    getD_zipWith Val.div _ _ i Val.nan Val.nan Val.nan hg hl]

theorem getD_of_length_le {α : Type} (l : List α) (d : α) (i : ℕ)
    (h : l.length ≤ i) : l.getD i d = d := by
  rw [List.getD_eq_getElem?_getD, List.getElem?_eq_none h]
  rfl

/-- Concrete evaluation: the rolling average gain of the series 1..14 with
period 14 at index 13. -/
theorem rsi_gain_14eval :
    (rsi_gain [1, 2, 3, 4, 5, 6, 7, 8, 9, 10, 11, 12, 13, 14] 14).getD 13 Val.nan =
      num (13/14) := by
  unfold rsi_gain
  rw [rollingMean_getD _ _ 13 (by simp [length_diff])]
  rw [if_neg (by norm_num)]
  norm_num [windowVals, diff, Val.sub, Val.neg, Val.blt, Val.isna, Val.div, Val.add]

/-- Concrete evaluation: the rolling average loss of the series 1..14 with
period 14 at index 13. -/
theorem rsi_loss_14eval :
    (rsi_loss [1, 2, 3, 4, 5, 6, 7, 8, 9, 10, 11, 12, 13, 14] 14).getD 13 Val.nan =
      num 0 := by
  unfold rsi_loss
  rw [rollingMean_getD _ _ 13 (by simp [length_diff])]
  rw [if_neg (by norm_num)]
  norm_num [windowVals, diff, Val.sub, Val.neg, Val.blt, Val.isna, Val.div, Val.add]

/-- Concrete evaluation: the RSI of the series 1..14 with period 14 at
index 13 is 100 (pure uptrend, via the infinite relative strength). -/
theorem rsi_14eval :
    (calculate_rsi [1, 2, 3, 4, 5, 6, 7, 8, 9, 10, 11, 12, 13, 14] 14).getD 13 Val.nan =
      num 100 := by
  rw [calculate_rsi_getD _ 14 13 (by norm_num), rsi_gain_14eval, rsi_loss_14eval]
  have h1 : Val.div (num (13/14)) (num 0) = Val.inf := by
    unfold Val.div
    norm_num
  rw [h1]
  norm_num [Val.add, Val.div, Val.sub, Val.neg]

/-- C3 counterexample: RSI is already non-null at index
`rsi_period - 1 = 13`.  The strictly increasing series 1..14 (14 closes,
fewer than rsi_period+1 = 15) has RSI 100 at index 13, and the spec's own
15-point series has RSI 2700/31 at index 13, so the first non-null RSI
appears at index 13, not 14. -/
theorem rsi_first_index_counterexample :
    (calculate_rsi [1, 2, 3, 4, 5, 6, 7, 8, 9, 10, 11, 12, 13, 14] 14).getD 13 Val.nan =
      num 100 ∧
    (calculate_rsi [100, 102, 101, 105, 108, 107, 110, 112, 111, 115, 118, 120, 119, 123, 125]
        14).getD 13 Val.nan = num (2700 / 31) := by
  constructor
  · exact rsi_14eval
  · rw [calculate_rsi_getD _ 14 13 (by norm_num)]
    have hg : (rsi_gain [100, 102, 101, 105, 108, 107, 110, 112, 111, 115, 118, 120, 119, 123, 125] 14).getD 13 Val.nan = num (27/14) := by
      unfold rsi_gain
      rw [rollingMean_getD _ _ 13 (by simp [length_diff])]
      rw [if_neg (by norm_num)]
      norm_num [windowVals, diff, Val.sub, Val.neg, Val.blt, Val.isna, Val.div, Val.add]
    have hl : (rsi_loss [100, 102, 101, 105, 108, 107, 110, 112, 111, 115, 118, 120, 119, 123, 125] 14).getD 13 Val.nan = num (2/7) := by
      unfold rsi_loss
      rw [rollingMean_getD _ _ 13 (by simp [length_diff])]
      rw [if_neg (by norm_num)]
      norm_num [windowVals, diff, Val.sub, Val.neg, Val.blt, Val.isna, Val.div, Val.add]
    rw [hg, hl]
    norm_num [Val.add, Val.div, Val.sub, Val.neg]

/-- C3 (amended): RSI is null at every index i with i + 1 < rsi_period, so
a series of length < rsi_period has an all-null RSI column; but the rolling
gain/loss means are already defined at index rsi_period − 1 = 13 (the NaN
delta of index 0 is masked to 0 by `where`), so the first non-null RSI of a
longer series appears at index 13 — e.g. RSI 100 at index 13 of the
14-point series 1..14. -/
theorem rsi_nullness :
    (∀ (prices : List ℚ) (period i : ℕ), i + 1 < period →
      (calculate_rsi prices period).getD i Val.nan = Val.nan) ∧
    (∀ (prices : List ℚ) (period : ℕ), prices.length < period →
      ∀ i, (calculate_rsi prices period).getD i Val.nan = Val.nan) ∧
    (calculate_rsi [1, 2, 3, 4, 5, 6, 7, 8, 9, 10, 11, 12, 13, 14] 14).getD 13 Val.nan =
      num 100 := by
  have h1 : ∀ (prices : List ℚ) (period i : ℕ), i + 1 < period →
      (calculate_rsi prices period).getD i Val.nan = Val.nan := by
    intro prices period i hip
    by_cases hi : i < prices.length
    · rw [calculate_rsi_getD prices period i hi]
      have hg : (rsi_gain prices period).getD i Val.nan = Val.nan := by
        unfold rsi_gain
        rw [rollingMean_getD _ _ i (by simp [length_diff, hi]), if_pos hip]
      rw [hg]
      simp
    · have hlen : (calculate_rsi prices period).length ≤ i := by
        unfold calculate_rsi
        simp only [List.length_map, List.length_zipWith, length_rsi_gain, length_rsi_loss]
        omega
      exact getD_of_length_le _ _ i hlen
  refine ⟨h1, ?_, ?_⟩
  · intro prices period hlen i
    by_cases hi : i < prices.length
    · exact h1 prices period i (by omega)
    · have hl : (calculate_rsi prices period).length ≤ i := by
        unfold calculate_rsi
        simp only [List.length_map, List.length_zipWith, length_rsi_gain, length_rsi_loss]
        omega
      exact getD_of_length_le _ _ i hl
  · exact rsi_14eval

/-- Witness for C3 (amended): the 3-point series 1,2,3 has null RSI at
indices 5 and 1, and the 14-point series 1..14 has RSI 100 at index 13. -/
theorem rsi_nullness_witness :
    (calculate_rsi [1, 2, 3] 14).getD 5 Val.nan = Val.nan ∧
    (calculate_rsi [1, 2, 3] 14).getD 1 Val.nan = Val.nan ∧
    (calculate_rsi [1, 2, 3, 4, 5, 6, 7, 8, 9, 10, 11, 12, 13, 14] 14).getD 13 Val.nan =
      num 100 :=
  ⟨rsi_nullness.1 [1, 2, 3] 14 5 (by norm_num),
    rsi_nullness.2.1 [1, 2, 3] 14 (by norm_num) 1,
    rsi_nullness.2.2⟩

/-- C6: at any index where the rolling average loss is exactly 0 and the
rolling average gain is a positive number, the RSI is exactly 100: the
division by the zero loss yields infinity, `100 - 100/(1 + inf)` collapses
to 100, and no error is raised. -/
theorem rsi_zero_loss_clamped (prices : List ℚ) (period i : ℕ) (g : ℚ)
    (hi : i < prices.length)
    (hl : (rsi_loss prices period).getD i Val.nan = num 0)
    (hg : (rsi_gain prices period).getD i Val.nan = num g)
    (hgpos : 0 < g) :
    (calculate_rsi prices period).getD i Val.nan = num 100 := by
  rw [calculate_rsi_getD prices period i hi, hg, hl]
  have h1 : Val.div (num g) (num 0) = Val.inf := by
    unfold Val.div
    simp [hgpos.ne', hgpos]
  rw [h1]
  norm_num [Val.add, Val.div, Val.sub, Val.neg]

/-- Witness for C6: the strictly increasing series 1..14 with period 14 at
index 13 has average loss 0, average gain 13/14 > 0, and RSI exactly 100. -/
theorem rsi_zero_loss_clamped_witness :
    (13 : ℕ) < ([1, 2, 3, 4, 5, 6, 7, 8, 9, 10, 11, 12, 13, 14] : List ℚ).length ∧
    (rsi_loss [1, 2, 3, 4, 5, 6, 7, 8, 9, 10, 11, 12, 13, 14] 14).getD 13 Val.nan = num 0 ∧
    (rsi_gain [1, 2, 3, 4, 5, 6, 7, 8, 9, 10, 11, 12, 13, 14] 14).getD 13 Val.nan =
      num (13 / 14) ∧
    (0 : ℚ) < 13 / 14 ∧
    (calculate_rsi [1, 2, 3, 4, 5, 6, 7, 8, 9, 10, 11, 12, 13, 14] 14).getD 13 Val.nan =
      num 100 :=
  ⟨by norm_num, rsi_loss_14eval, rsi_gain_14eval, by norm_num,
    rsi_zero_loss_clamped [1, 2, 3, 4, 5, 6, 7, 8, 9, 10, 11, 12, 13, 14] 14 13 (13 / 14)
      (by norm_num) rsi_loss_14eval rsi_gain_14eval (by norm_num)⟩

/-- The columns of the indicator dataframe that `generate_signal` reads
from its last row.  A field is `none` when the column is absent from the
dataframe (`Series.get` then returns Python `None`), and `some v` when the
column holds the value `v` (possibly NaN). -/
structure Row where
  rsi : Option Val
  macd : Option Val
  macds : Option Val
  ema9 : Option Val
  ema21 : Option Val
  close : Option Val
  vol : Option Val
  mediavol : Option Val
deriving DecidableEq, Repr

/-- The check `pd.isna` applied to the result of `latest.get(col)`: true when the
column is absent (`None`) or holds NaN. -/
def isnaOpt : Option Val → Bool
  | none => true
  | some v => v.isna

/-- The dictionary returned by `TradingAnalyzer.generate_signal`. -/
structure SignalRecord where
  signal : Signal
  price : Val
  rsi : Val
  macd : Val
  macd_signal : Val
  ema9 : Val
  ema21 : Val
  volume : Val
  volume_avg : Val
deriving DecidableEq, Repr

/-- Embedding of `TradingAnalyzer.generate_signal`: `None` for a missing dataframe, an
empty one or one with fewer than 2 rows; otherwise reads the last row,
returns `None` when any of RSI, MACD, MACD-signal, EMA9, EMA21 or close is
missing/NaN (`any(pd.isna([...]))`), and otherwise builds the record, with
`Volume` and `MediaVolume` defaulting to 0 when those columns are absent
(`latest.get("Volume", 0)`). -/
def generate_signal : Option (List Row) → Option SignalRecord
  | none => none
  | some rows =>
    if rows.length < 2 then none
    else
      match rows.getLast? with
      | none => none
      | some latest =>
        if isnaOpt latest.rsi || isnaOpt latest.macd || isnaOpt latest.macds ||
            isnaOpt latest.ema9 || isnaOpt latest.ema21 || isnaOpt latest.close then
          none
        else
          some {
            signal := determine_signal (latest.rsi.getD Val.nan) (latest.macd.getD Val.nan)
              (latest.macds.getD Val.nan) (latest.ema9.getD Val.nan) (latest.ema21.getD Val.nan),
            price := latest.close.getD Val.nan,
            rsi := latest.rsi.getD Val.nan,
            macd := latest.macd.getD Val.nan,
            macd_signal := latest.macds.getD Val.nan,
            ema9 := latest.ema9.getD Val.nan,
            ema21 := latest.ema21.getD Val.nan,
            volume := latest.vol.getD (num 0),
            volume_avg := latest.mediavol.getD (num 0) }

/-- Unfolding of `generate_signal` in the successful case. -/
theorem generate_signal_some (rows : List Row) (l : Row)
    (h2 : ¬ rows.length < 2) (hl : rows.getLast? = some l)
    (hna : (isnaOpt l.rsi || isnaOpt l.macd || isnaOpt l.macds ||
      isnaOpt l.ema9 || isnaOpt l.ema21 || isnaOpt l.close) = false) :
    generate_signal (some rows) =
      some {
        signal := determine_signal (l.rsi.getD Val.nan) (l.macd.getD Val.nan)
          (l.macds.getD Val.nan) (l.ema9.getD Val.nan) (l.ema21.getD Val.nan),
        price := l.close.getD Val.nan,
        rsi := l.rsi.getD Val.nan,
        macd := l.macd.getD Val.nan,
        macd_signal := l.macds.getD Val.nan,
        ema9 := l.ema9.getD Val.nan,
        ema21 := l.ema21.getD Val.nan,
        volume := l.vol.getD (num 0),
        volume_avg := l.mediavol.getD (num 0) } := by
  simp only [generate_signal]
  rw [if_neg h2]
  split
  · next hnone => rw [hl] at hnone; cases hnone
  · next latest hlatest =>
      rw [hl] at hlatest
      injection hlatest with hll
      subst hll
      simp [hna]

/-- The function `generate_signal` returns None when the na-guard fires on the last row. -/
theorem generate_signal_none_of_na (rows : List Row) (l : Row)
    (hl : rows.getLast? = some l)
    (hna : (isnaOpt l.rsi || isnaOpt l.macd || isnaOpt l.macds ||
      isnaOpt l.ema9 || isnaOpt l.ema21 || isnaOpt l.close) = true) :
    generate_signal (some rows) = none := by
  simp only [generate_signal]
  by_cases h2 : rows.length < 2
  · rw [if_pos h2]
  · rw [if_neg h2]
    split
    · rfl
    · next latest hlatest =>
        rw [hl] at hlatest
        injection hlatest with hll
        subst hll
        simp [hna]

/-- The signal field of any record produced by `generate_signal` is
`_determine_signal` of the five governing columns of the last row. -/
theorem generate_signal_signal_eq (rows : List Row) (l : Row) (r : SignalRecord)
    (hl : rows.getLast? = some l)
    (hg : generate_signal (some rows) = some r) :
    r.signal = determine_signal (l.rsi.getD Val.nan) (l.macd.getD Val.nan)
      (l.macds.getD Val.nan) (l.ema9.getD Val.nan) (l.ema21.getD Val.nan) := by
  by_cases h2 : rows.length < 2
  · have hnone : generate_signal (some rows) = none := by
      simp only [generate_signal]
      rw [if_pos h2]
    rw [hnone] at hg
    cases hg
  · cases hna : (isnaOpt l.rsi || isnaOpt l.macd || isnaOpt l.macds ||
        isnaOpt l.ema9 || isnaOpt l.ema21 || isnaOpt l.close) with
    | true =>
      have hnone : generate_signal (some rows) = none :=
        generate_signal_none_of_na rows l hl hna
      rw [hnone] at hg
      cases hg
    | false =>
      rw [generate_signal_some rows l h2 hl hna] at hg
      obtain rfl := Option.some_injective _ hg.symm
      rfl

/-- C2: `generate_signal` returns None — never an error — when the input
dataframe is missing, empty or has fewer than 2 rows, and also when any of
the six values {rsi, macd, macd_signal, ema9, ema21, close} read from the
last row is missing or NaN. -/
theorem generate_signal_insufficient :
    generate_signal none = none ∧
    (∀ rows : List Row, rows.length < 2 → generate_signal (some rows) = none) ∧
    (∀ (rows : List Row) (l : Row), rows.getLast? = some l →
      (isnaOpt l.rsi || isnaOpt l.macd || isnaOpt l.macds ||
        isnaOpt l.ema9 || isnaOpt l.ema21 || isnaOpt l.close) = true →
      generate_signal (some rows) = none) := by
  refine ⟨rfl, ?_, ?_⟩
  · intro rows h
    simp only [generate_signal]
    rw [if_pos h]
  · intro rows l hl hna
    exact generate_signal_none_of_na rows l hl hna

/-- Witness for C2: the empty dataframe, and a 2-row dataframe whose last
row has a NaN RSI, both yield None. -/
theorem generate_signal_insufficient_witness :
    ([] : List Row).length < 2 ∧
    generate_signal (some ([] : List Row)) = none ∧
    ([⟨some (num 1), some (num 1), some (num 1), some (num 1), some (num 1),
        some (num 1), some (num 1), some (num 1)⟩,
      ⟨some Val.nan, some (num 1), some (num 1), some (num 1), some (num 1),
        some (num 1), some (num 1), some (num 1)⟩] : List Row).getLast? =
      some ⟨some Val.nan, some (num 1), some (num 1), some (num 1), some (num 1),
        some (num 1), some (num 1), some (num 1)⟩ ∧
    generate_signal (some ([⟨some (num 1), some (num 1), some (num 1), some (num 1),
      some (num 1), some (num 1), some (num 1), some (num 1)⟩,
      ⟨some Val.nan, some (num 1), some (num 1), some (num 1), some (num 1),
        some (num 1), some (num 1), some (num 1)⟩] : List Row)) = none := by
  refine ⟨by norm_num, generate_signal_insufficient.2.1 [] (by norm_num), by rfl, ?_⟩
  exact generate_signal_insufficient.2.2 _ _ (by rfl) (by rfl)

/-- C7: the signal class is a pure function of the five governing fields —
two dataframes whose last rows agree on (rsi, macd, macd_signal, ema9,
ema21), whatever their prices, volumes or any other state, produce records
with the same signal class. -/
theorem signal_pure_function (rows1 rows2 : List Row) (l1 l2 : Row)
    (r1 r2 : SignalRecord)
    (hl1 : rows1.getLast? = some l1) (hl2 : rows2.getLast? = some l2)
    (hrsi : l1.rsi = l2.rsi) (hmacd : l1.macd = l2.macd)
    (hmacds : l1.macds = l2.macds) (he9 : l1.ema9 = l2.ema9)
    (he21 : l1.ema21 = l2.ema21)
    (hg1 : generate_signal (some rows1) = some r1)
    (hg2 : generate_signal (some rows2) = some r2) :
    r1.signal = r2.signal := by
  rw [generate_signal_signal_eq rows1 l1 r1 hl1 hg1,
    generate_signal_signal_eq rows2 l2 r2 hl2 hg2, hrsi, hmacd, hmacds, he9, he21]

/-- Witness for C7: two 2-row dataframes agreeing on the five governing
fields of their last rows but with different closes and volumes produce
records with the same signal class. -/
theorem signal_pure_function_witness :
    ([⟨some (num 50), some (num 1), some (num 0), some (num 2), some (num 1),
        some (num 3), some (num 7), some (num 7)⟩,
      ⟨some (num 50), some (num 1), some (num 0), some (num 2), some (num 1),
        some (num 3), some (num 7), some (num 7)⟩] : List Row).getLast? =
      some ⟨some (num 50), some (num 1), some (num 0), some (num 2), some (num 1),
        some (num 3), some (num 7), some (num 7)⟩ ∧
    ([⟨some (num 50), some (num 1), some (num 0), some (num 2), some (num 1),
        some (num 4), some (num 8), some (num 8)⟩,
      ⟨some (num 50), some (num 1), some (num 0), some (num 2), some (num 1),
        some (num 4), some (num 8), some (num 8)⟩] : List Row).getLast? =
      some ⟨some (num 50), some (num 1), some (num 0), some (num 2), some (num 1),
        some (num 4), some (num 8), some (num 8)⟩ ∧
    generate_signal (some ([⟨some (num 50), some (num 1), some (num 0), some (num 2),
      some (num 1), some (num 3), some (num 7), some (num 7)⟩,
      ⟨some (num 50), some (num 1), some (num 0), some (num 2), some (num 1),
        some (num 3), some (num 7), some (num 7)⟩] : List Row)) =
      some {
        signal := determine_signal (num 50) (num 1) (num 0) (num 2) (num 1),
        price := num 3, rsi := num 50, macd := num 1, macd_signal := num 0,
        ema9 := num 2, ema21 := num 1, volume := num 7, volume_avg := num 7 } ∧
    generate_signal (some ([⟨some (num 50), some (num 1), some (num 0), some (num 2),
      some (num 1), some (num 4), some (num 8), some (num 8)⟩,
      ⟨some (num 50), some (num 1), some (num 0), some (num 2), some (num 1),
        some (num 4), some (num 8), some (num 8)⟩] : List Row)) =
      some {
        signal := determine_signal (num 50) (num 1) (num 0) (num 2) (num 1),
        price := num 4, rsi := num 50, macd := num 1, macd_signal := num 0,
        ema9 := num 2, ema21 := num 1, volume := num 8, volume_avg := num 8 } ∧
    SignalRecord.signal {
        signal := determine_signal (num 50) (num 1) (num 0) (num 2) (num 1),
        price := num 3, rsi := num 50, macd := num 1, macd_signal := num 0,
        ema9 := num 2, ema21 := num 1, volume := num 7, volume_avg := num 7 } =
      SignalRecord.signal {
        signal := determine_signal (num 50) (num 1) (num 0) (num 2) (num 1),
        price := num 4, rsi := num 50, macd := num 1, macd_signal := num 0,
        ema9 := num 2, ema21 := num 1, volume := num 8, volume_avg := num 8 } := by
  have hg1 : generate_signal (some ([⟨some (num 50), some (num 1), some (num 0), some (num 2),
      some (num 1), some (num 3), some (num 7), some (num 7)⟩,
      ⟨some (num 50), some (num 1), some (num 0), some (num 2), some (num 1),
        some (num 3), some (num 7), some (num 7)⟩] : List Row)) =
      some {
        signal := determine_signal (num 50) (num 1) (num 0) (num 2) (num 1),
        price := num 3, rsi := num 50, macd := num 1, macd_signal := num 0,
        ema9 := num 2, ema21 := num 1, volume := num 7, volume_avg := num 7 } :=
    generate_signal_some
      [⟨some (num 50), some (num 1), some (num 0), some (num 2), some (num 1),
        some (num 3), some (num 7), some (num 7)⟩,
       ⟨some (num 50), some (num 1), some (num 0), some (num 2), some (num 1),
        some (num 3), some (num 7), some (num 7)⟩]
      ⟨some (num 50), some (num 1), some (num 0), some (num 2), some (num 1),
        some (num 3), some (num 7), some (num 7)⟩
      (by norm_num) rfl rfl
  have hg2 : generate_signal (some ([⟨some (num 50), some (num 1), some (num 0), some (num 2),
      some (num 1), some (num 4), some (num 8), some (num 8)⟩,
      ⟨some (num 50), some (num 1), some (num 0), some (num 2), some (num 1),
        some (num 4), some (num 8), some (num 8)⟩] : List Row)) =
      some {
        signal := determine_signal (num 50) (num 1) (num 0) (num 2) (num 1),
        price := num 4, rsi := num 50, macd := num 1, macd_signal := num 0,
        ema9 := num 2, ema21 := num 1, volume := num 8, volume_avg := num 8 } :=
    generate_signal_some
      [⟨some (num 50), some (num 1), some (num 0), some (num 2), some (num 1),
        some (num 4), some (num 8), some (num 8)⟩,
       ⟨some (num 50), some (num 1), some (num 0), some (num 2), some (num 1),
        some (num 4), some (num 8), some (num 8)⟩]
      ⟨some (num 50), some (num 1), some (num 0), some (num 2), some (num 1),
        some (num 4), some (num 8), some (num 8)⟩
      (by norm_num) rfl rfl
  exact ⟨rfl, rfl, hg1, hg2,
    signal_pure_function
      [⟨some (num 50), some (num 1), some (num 0), some (num 2), some (num 1),
        some (num 3), some (num 7), some (num 7)⟩,
       ⟨some (num 50), some (num 1), some (num 0), some (num 2), some (num 1),
        some (num 3), some (num 7), some (num 7)⟩]
      [⟨some (num 50), some (num 1), some (num 0), some (num 2), some (num 1),
        some (num 4), some (num 8), some (num 8)⟩,
       ⟨some (num 50), some (num 1), some (num 0), some (num 2), some (num 1),
        some (num 4), some (num 8), some (num 8)⟩]
      ⟨some (num 50), some (num 1), some (num 0), some (num 2), some (num 1),
        some (num 3), some (num 7), some (num 7)⟩
      ⟨some (num 50), some (num 1), some (num 0), some (num 2), some (num 1),
        some (num 4), some (num 8), some (num 8)⟩
      _ _ rfl rfl rfl rfl rfl rfl rfl hg1 hg2⟩

/-- Embedding of `TradingAnalyzer.get_signal_strength` on a record whose five indicator
fields are finite numbers: RSI contribution (+2 / +1 / −2 / −1 / 0), plus
`min(2, |macd − macd_signal|·100)` signed by the MACD direction, plus
`min(2, |ema9 − ema21|/ema21·100)` signed by the EMA direction; the sum is
shifted by 10, scaled by 5 and clamped to [0, 100]. -/
def get_signal_strength (rsi macd macd_signal ema9 ema21 : ℚ) : ℚ :=
  let strength1 : ℚ :=
    if rsi > 70 then 2
    else if rsi > 60 then 1
    else if rsi < 30 then -2
    else if rsi < 40 then -1
    else 0
  let macd_diff := |macd - macd_signal|
  let strength2 :=
    if macd > macd_signal then strength1 + min 2 (macd_diff * 100)
    else strength1 - min 2 (macd_diff * 100)
  let ema_diff := |ema9 - ema21| / ema21 * 100
  let strength3 :=
    if ema9 > ema21 then strength2 + min 2 ema_diff
    else strength2 - min 2 ema_diff
  max 0 (min 100 ((strength3 + 10) * 5))

/-- The strength formula as the spec words it: a raw sum of three signed
contributions, then `clamp((raw + 10) * 5, 0, 100)`. -/
def strength_spec (rsi macd macd_signal ema9 ema21 : ℚ) : ℚ :=
  let rsiC : ℚ :=
    if rsi > 70 then 2
    else if rsi > 60 then 1
    else if rsi < 30 then -2
    else if rsi < 40 then -1
    else 0
  let macdC : ℚ :=
    if macd > macd_signal then min 2 (|macd - macd_signal| * 100)
    else -(min 2 (|macd - macd_signal| * 100))
  let emaC : ℚ :=
    if ema9 > ema21 then min 2 (|ema9 - ema21| / ema21 * 100)
    else -(min 2 (|ema9 - ema21| / ema21 * 100))
  max 0 (min 100 ((rsiC + macdC + emaC + 10) * 5))

/-- C9 (amended): for finite fields with ema21 ≠ 0 the returned strength
equals the spec's clamp formula and lies in [0, 100]; it is a rational
number, not necessarily an integer. -/
theorem get_signal_strength_spec (r m s a b : ℚ) (hb : b ≠ 0) :
    get_signal_strength r m s a b = strength_spec r m s a b ∧
    0 ≤ get_signal_strength r m s a b ∧ get_signal_strength r m s a b ≤ 100 := by
  refine ⟨?_, le_max_left 0 _, max_le (by norm_num) (min_le_left _ _)⟩
  unfold get_signal_strength strength_spec
  split_ifs <;> ring

/-- Witness for C9 at the record (rsi 50, macd 1/200, macd_signal 0,
ema9 100, ema21 100). -/
theorem get_signal_strength_spec_witness :
    (100 : ℚ) ≠ 0 ∧
    get_signal_strength 50 (1/200) 0 100 100 = strength_spec 50 (1/200) 0 100 100 ∧
    0 ≤ get_signal_strength 50 (1/200) 0 100 100 ∧
    get_signal_strength 50 (1/200) 0 100 100 ≤ 100 :=
  ⟨by norm_num, get_signal_strength_spec 50 (1/200) 0 100 100 (by norm_num)⟩

/-- C9 counterexample: at (rsi 50, macd 1/200, macd_signal 0, ema9 100,
ema21 100) the strength is 105/2 = 52.5, which is not an integer (it
differs from its floor), refuting the claim that the result is an integer
in [0, 100]. -/
theorem get_signal_strength_not_integer :
    get_signal_strength 50 (1/200) 0 100 100 = 105/2 ∧
    (⌊get_signal_strength 50 (1/200) 0 100 100⌋ : ℚ) ≠
      get_signal_strength 50 (1/200) 0 100 100 := by
  have h : get_signal_strength 50 (1/200) 0 100 100 = 105/2 := by
    unfold get_signal_strength
    norm_num
    rw [show |(1:ℚ)/200| = 1/200 from abs_of_pos (by norm_num)]
    norm_num [min_def, max_def]
  rw [h]
  norm_num

/-- Embedding of `TradingAnalyzer.calculate_indicators` as the row sequence that
`generate_signal` reads back: RSI(14), the MACD(12, 26, 9) line and signal
columns, EMA9, EMA21, the close itself, `Volume = close.diff().abs()` and
`MediaVolume = Volume.rolling(20).mean()`.  (The histogram column
`MACDh_12_26_9` is also stored by the source but never read back.)  Row `i`
holds the `i`-th value of each column; every column is present. -/
def calculate_indicators (closes : List ℚ) : List Row :=
  let rsiS := calculate_rsi closes 14
  let macd3 := calculate_macd closes 12 26 9
  let e9 := calculate_ema closes 9
  let e21 := calculate_ema closes 21
  let volS := (diff (closes.map num)).map Val.vabs
  let mvS := rollingMean 20 volS
  (List.range closes.length).map (fun i =>
    { rsi := some (rsiS.getD i Val.nan),
      macd := some (num (macd3.1.getD i 0)),
      macds := some (num (macd3.2.1.getD i 0)),
      ema9 := some (num (e9.getD i 0)),
      ema21 := some (num (e21.getD i 0)),
      close := some (num (closes.getD i 0)),
      vol := some (volS.getD i Val.nan),
      mediavol := some (mvS.getD i Val.nan) })

/-- Any record produced by `generate_signal` is exactly the dictionary
built from the last row. -/
theorem generate_signal_record_eq (rows : List Row) (l : Row) (r : SignalRecord)
    (hl : rows.getLast? = some l)
    (hg : generate_signal (some rows) = some r) :
    r = { signal := determine_signal (l.rsi.getD Val.nan) (l.macd.getD Val.nan)
            (l.macds.getD Val.nan) (l.ema9.getD Val.nan) (l.ema21.getD Val.nan),
          price := l.close.getD Val.nan,
          rsi := l.rsi.getD Val.nan,
          macd := l.macd.getD Val.nan,
          macd_signal := l.macds.getD Val.nan,
          ema9 := l.ema9.getD Val.nan,
          ema21 := l.ema21.getD Val.nan,
          volume := l.vol.getD (num 0),
          volume_avg := l.mediavol.getD (num 0) } := by
  by_cases h2 : rows.length < 2
  · have hnone : generate_signal (some rows) = none := by
      simp only [generate_signal]
      rw [if_pos h2]
    rw [hnone] at hg
    cases hg
  · cases hna : (isnaOpt l.rsi || isnaOpt l.macd || isnaOpt l.macds ||
        isnaOpt l.ema9 || isnaOpt l.ema21 || isnaOpt l.close) with
    | true =>
      have hnone : generate_signal (some rows) = none :=
        generate_signal_none_of_na rows l hl hna
      rw [hnone] at hg
      cases hg
    | false =>
      rw [generate_signal_some rows l h2 hl hna] at hg
      exact (Option.some_injective _ hg).symm

theorem getLast?_range_map {α : Type} (f : ℕ → α) (n : ℕ) (hn : n ≠ 0) :
    ((List.range n).map f).getLast? = some (f (n - 1)) := by
  rw [List.getLast?_eq_getElem?]
  have hlen : ((List.range n).map f).length = n := by simp
  rw [hlen, List.getElem?_map, List.getElem?_range (by omega)]
  rfl

/-- The last row of the indicator dataframe, for a non-empty close series. -/
theorem calculate_indicators_getLast (closes : List ℚ) (hne : closes ≠ []) :
    (calculate_indicators closes).getLast? = some {
      rsi := some ((calculate_rsi closes 14).getD (closes.length - 1) Val.nan),
      macd := some (num ((calculate_macd closes 12 26 9).1.getD (closes.length - 1) 0)),
      macds := some (num ((calculate_macd closes 12 26 9).2.1.getD (closes.length - 1) 0)),
      ema9 := some (num ((calculate_ema closes 9).getD (closes.length - 1) 0)),
      ema21 := some (num ((calculate_ema closes 21).getD (closes.length - 1) 0)),
      close := some (num (closes.getD (closes.length - 1) 0)),
      vol := some (((diff (closes.map num)).map Val.vabs).getD (closes.length - 1) Val.nan),
      mediavol := some ((rollingMean 20 ((diff (closes.map num)).map Val.vabs)).getD
        (closes.length - 1) Val.nan) } := by
  have hn : closes.length ≠ 0 := by simpa using hne
  exact getLast?_range_map _ closes.length hn

theorem length_calculate_indicators (closes : List ℚ) :
    (calculate_indicators closes).length = closes.length := by
  simp [calculate_indicators]

/-- The volume proxy at an index `i ≥ 1` is the finite number
`|close[i] - close[i-1]|`. -/
theorem volS_getD_num (closes : List ℚ) (i : ℕ) (h1 : 1 ≤ i) (h2 : i < closes.length) :
    ((diff (closes.map num)).map Val.vabs).getD i Val.nan =
      num |closes.getD i 0 - closes.getD (i - 1) 0| := by
  cases closes with
  | nil => simp at h2
  | cons c rest =>
    cases i with
    | zero => omega
    | succ j =>
      have hj : j < rest.length := by
        simp only [List.length_cons] at h2
        omega
      have hdiff : diff ((c :: rest).map num) =
          Val.nan :: List.zipWith Val.sub (rest.map num) ((c :: rest).map num) := rfl
      rw [hdiff, List.map_cons, List.getD_cons_succ]
      have hjz : j < (List.zipWith Val.sub (rest.map num) ((c :: rest).map num)).length := by
        simp [List.length_zipWith]
        omega
      rw [getD_map Val.vabs _ j Val.nan Val.nan hjz,
        getD_zipWith Val.sub _ _ j Val.nan Val.nan Val.nan (by simpa using hj) (by simp; omega),
        getD_map num rest j 0 Val.nan hj,
        getD_map num (c :: rest) j 0 Val.nan (by simp; omega)]
      simp only [List.getD_cons_succ, Nat.add_sub_cancel]
      rw [Val.sub_num]
      rfl

/-- For a series of 2 to 20 closes, the `MediaVolume` read off the last row
is NaN: either the window is short of 20 observations, or (at exactly 20
closes) it contains the NaN head of the diffed volume column. -/
theorem mediavol_nan_of_short (closes : List ℚ) (h2 : 2 ≤ closes.length)
    (h21 : closes.length < 21) :
    (rollingMean 20 ((diff (closes.map num)).map Val.vabs)).getD
      (closes.length - 1) Val.nan = Val.nan := by
  have hlen : ((diff (closes.map num)).map Val.vabs).length = closes.length := by
    simp [length_diff]
  have hi : closes.length - 1 < ((diff (closes.map num)).map Val.vabs).length := by
    omega
  rw [rollingMean_getD 20 _ _ hi]
  by_cases hlt : closes.length - 1 + 1 < 20
  · rw [if_pos hlt]
  · rw [if_neg hlt]
    have h20 : closes.length = 20 := by omega
    obtain ⟨c, rest, rfl⟩ : ∃ c rest, closes = c :: rest := by
      cases closes with
      | nil => simp at h2
      | cons c rest => exact ⟨c, rest, rfl⟩
    have hwany : (windowVals 20 ((diff ((c :: rest).map num)).map Val.vabs)
        ((c :: rest).length - 1)).any Val.isna = true := by
      unfold windowVals
      have hz : (c :: rest).length - 1 + 1 - 20 = 0 := by omega
      rw [hz, List.drop_zero]
      have hd : diff ((c :: rest).map num) =
          Val.nan :: List.zipWith Val.sub (rest.map num) ((c :: rest).map num) := rfl
      rw [hd, List.map_cons]
      have hpos : (c :: rest).length - 1 + 1 = 20 := by omega
      rw [hpos, List.take_succ_cons]
      simp [Val.isna, Val.vabs]
    rw [if_pos hwany]

/-- The function `generate_signal` produces a record whenever the dataframe has at least
2 rows and the six guarded fields of the last row are finite. -/
theorem generate_signal_isSome_of (rows : List Row) (l : Row)
    (h2 : ¬ rows.length < 2) (hl : rows.getLast? = some l)
    (hna : (isnaOpt l.rsi || isnaOpt l.macd || isnaOpt l.macds ||
      isnaOpt l.ema9 || isnaOpt l.ema21 || isnaOpt l.close) = false) :
    (generate_signal (some rows)).isSome = true := by
  rw [generate_signal_some rows l h2 hl hna]
  rfl

/-- C10 (amended): the null guard of `generate_signal` covers only the six
fields {rsi, macd, macd_signal, ema9, ema21, close}.  For any pipeline
dataframe of 2 to 20 closes that yields a record, the record's volume field
is a finite number — never NaN, since the close diff is defined from index
1 on — while its volume_avg field is NaN; and when the volume columns are
absent from the dataframe, both fields default to 0 and the absence never
causes a None result (the guard ignores them). -/
theorem volume_fields_amended :
    (∀ (closes : List ℚ) (rec : SignalRecord), 2 ≤ closes.length → closes.length < 21 →
      generate_signal (some (calculate_indicators closes)) = some rec →
      rec.volume ≠ Val.nan ∧ rec.volume_avg = Val.nan) ∧
    (∀ (rows : List Row) (l : Row) (rec : SignalRecord), rows.getLast? = some l →
      l.vol = none → l.mediavol = none →
      generate_signal (some rows) = some rec →
      rec.volume = num 0 ∧ rec.volume_avg = num 0) ∧
    (∀ (rows : List Row) (l : Row), ¬ rows.length < 2 → rows.getLast? = some l →
      (isnaOpt l.rsi || isnaOpt l.macd || isnaOpt l.macds ||
        isnaOpt l.ema9 || isnaOpt l.ema21 || isnaOpt l.close) = false →
      (generate_signal (some rows)).isSome = true) := by
  refine ⟨?_, ?_, ?_⟩
  · intro closes rec h2 h21 hg
    have hne : closes ≠ [] := by
      intro h
      rw [h] at h2
      simp at h2
    have hrec := generate_signal_record_eq _ _ _ (calculate_indicators_getLast closes hne) hg
    subst hrec
    constructor
    · simp only [Option.getD_some]
      rw [volS_getD_num closes (closes.length - 1) (by omega) (by omega)]
      simp
    · simp only [Option.getD_some]
      exact mediavol_nan_of_short closes h2 h21
  · intro rows l rec hl hv hm hg
    have hrec := generate_signal_record_eq rows l rec hl hg
    subst hrec
    constructor
    · simp [hv]
    · simp [hm]
  · exact generate_signal_isSome_of

/-- The last row of the pipeline dataframe for the series 1..14, with the
index `14 - 1` evaluated. -/
theorem calculate_indicators_14_getLast :
    (calculate_indicators [1, 2, 3, 4, 5, 6, 7, 8, 9, 10, 11, 12, 13, 14]).getLast? = some {
      rsi := some ((calculate_rsi [1, 2, 3, 4, 5, 6, 7, 8, 9, 10, 11, 12, 13, 14] 14).getD
        13 Val.nan),
      macd := some (num ((calculate_macd [1, 2, 3, 4, 5, 6, 7, 8, 9, 10, 11, 12, 13, 14]
        12 26 9).1.getD 13 0)),
      macds := some (num ((calculate_macd [1, 2, 3, 4, 5, 6, 7, 8, 9, 10, 11, 12, 13, 14]
        12 26 9).2.1.getD 13 0)),
      ema9 := some (num ((calculate_ema [1, 2, 3, 4, 5, 6, 7, 8, 9, 10, 11, 12, 13, 14]
        9).getD 13 0)),
      ema21 := some (num ((calculate_ema [1, 2, 3, 4, 5, 6, 7, 8, 9, 10, 11, 12, 13, 14]
        21).getD 13 0)),
      close := some (num (([1, 2, 3, 4, 5, 6, 7, 8, 9, 10, 11, 12, 13, 14] : List ℚ).getD 13 0)),
      vol := some (((diff (([1, 2, 3, 4, 5, 6, 7, 8, 9, 10, 11, 12, 13, 14] : List ℚ).map
        num)).map Val.vabs).getD 13 Val.nan),
      mediavol := some ((rollingMean 20 ((diff (([1, 2, 3, 4, 5, 6, 7, 8, 9, 10, 11, 12, 13,
        14] : List ℚ).map num)).map Val.vabs)).getD 13 Val.nan) } := by
  have h := calculate_indicators_getLast [1, 2, 3, 4, 5, 6, 7, 8, 9, 10, 11, 12, 13, 14]
    (by simp)
  norm_num at h
  exact h

/-- The pipeline run on the series 1..14 produces a record. -/
theorem pipeline14_isSome :
    (generate_signal (some (calculate_indicators
      [1, 2, 3, 4, 5, 6, 7, 8, 9, 10, 11, 12, 13, 14]))).isSome = true := by
  apply generate_signal_isSome_of _ _ ?_ calculate_indicators_14_getLast ?_
  · rw [length_calculate_indicators]
    norm_num
  · simp only [rsi_14eval, isnaOpt, Val.isna_num, Bool.or_self, Bool.or_false]

/-- C10 counterexample: the pipeline on the 14-point series 1..14 — long
enough for every governing indicator but with fewer than 21 points of
volume history — returns a record whose volume is the finite number 1 (not
NaN), while only volume_avg is NaN; so no record of this family has both
fields NaN. -/
theorem volume_fields_counterexample :
    (generate_signal (some (calculate_indicators
      [1, 2, 3, 4, 5, 6, 7, 8, 9, 10, 11, 12, 13, 14]))).map SignalRecord.volume =
      some (num 1) ∧
    (generate_signal (some (calculate_indicators
      [1, 2, 3, 4, 5, 6, 7, 8, 9, 10, 11, 12, 13, 14]))).map SignalRecord.volume_avg =
      some Val.nan := by
  have h2 : ¬ (calculate_indicators [1, 2, 3, 4, 5, 6, 7, 8, 9, 10, 11, 12, 13, 14]).length < 2 := by
    rw [length_calculate_indicators]
    norm_num
  rw [generate_signal_some _ _ h2 calculate_indicators_14_getLast
    (by simp only [rsi_14eval, isnaOpt, Val.isna_num, Bool.or_self, Bool.or_false])]
  constructor
  · simp only [Option.map_some, Option.map_some', Option.getD_some]
    rw [volS_getD_num [1, 2, 3, 4, 5, 6, 7, 8, 9, 10, 11, 12, 13, 14] 13 (by norm_num)
      (by norm_num)]
    norm_num
  · simp only [Option.map_some, Option.map_some', Option.getD_some]
    have h := mediavol_nan_of_short [1, 2, 3, 4, 5, 6, 7, 8, 9, 10, 11, 12, 13, 14]
      (by norm_num) (by norm_num)
    norm_num at h
    norm_num [h]

/-- Witness for C10 on the series 1..14 (parts one and three) and on a
2-row dataframe without volume columns (part two). -/
theorem volume_fields_amended_witness :
    (2 : ℕ) ≤ ([1, 2, 3, 4, 5, 6, 7, 8, 9, 10, 11, 12, 13, 14] : List ℚ).length ∧
    ([1, 2, 3, 4, 5, 6, 7, 8, 9, 10, 11, 12, 13, 14] : List ℚ).length < 21 ∧
    (generate_signal (some (calculate_indicators
      [1, 2, 3, 4, 5, 6, 7, 8, 9, 10, 11, 12, 13, 14]))).map SignalRecord.volume_avg =
      some Val.nan ∧
    ¬ ((generate_signal (some (calculate_indicators
      [1, 2, 3, 4, 5, 6, 7, 8, 9, 10, 11, 12, 13, 14]))).map SignalRecord.volume =
      some Val.nan) ∧
    ([⟨some (num 50), some (num 1), some (num 0), some (num 2), some (num 1),
        some (num 3), none, none⟩,
      ⟨some (num 50), some (num 1), some (num 0), some (num 2), some (num 1),
        some (num 3), none, none⟩] : List Row).getLast? =
      some ⟨some (num 50), some (num 1), some (num 0), some (num 2), some (num 1),
        some (num 3), none, none⟩ ∧
    (generate_signal (some ([⟨some (num 50), some (num 1), some (num 0), some (num 2),
      some (num 1), some (num 3), none, none⟩,
      ⟨some (num 50), some (num 1), some (num 0), some (num 2), some (num 1),
        some (num 3), none, none⟩] : List Row))).map SignalRecord.volume = some (num 0) ∧
    (generate_signal (some ([⟨some (num 50), some (num 1), some (num 0), some (num 2),
      some (num 1), some (num 3), none, none⟩,
      ⟨some (num 50), some (num 1), some (num 0), some (num 2), some (num 1),
        some (num 3), none, none⟩] : List Row))).map SignalRecord.volume_avg =
      some (num 0) ∧
    (generate_signal (some ([⟨some (num 50), some (num 1), some (num 0), some (num 2),
      some (num 1), some (num 3), none, none⟩,
      ⟨some (num 50), some (num 1), some (num 0), some (num 2), some (num 1),
        some (num 3), none, none⟩] : List Row))).isSome = true := by
  obtain ⟨rec, hrec⟩ := Option.isSome_iff_exists.mp pipeline14_isSome
  have hparts := volume_fields_amended.1 [1, 2, 3, 4, 5, 6, 7, 8, 9, 10, 11, 12, 13, 14]
    rec (by norm_num) (by norm_num) hrec
  have hl2 : ([⟨some (num 50), some (num 1), some (num 0), some (num 2), some (num 1),
      some (num 3), none, none⟩,
      ⟨some (num 50), some (num 1), some (num 0), some (num 2), some (num 1),
        some (num 3), none, none⟩] : List Row).getLast? =
      some ⟨some (num 50), some (num 1), some (num 0), some (num 2), some (num 1),
        some (num 3), none, none⟩ := rfl
  have h2' : ¬ ([⟨some (num 50), some (num 1), some (num 0), some (num 2), some (num 1),
      some (num 3), none, none⟩,
      ⟨some (num 50), some (num 1), some (num 0), some (num 2), some (num 1),
        some (num 3), none, none⟩] : List Row).length < 2 := by norm_num
  have hg2 := generate_signal_some _ _ h2' hl2 rfl
  have hb := volume_fields_amended.2.1 _ _ _ hl2 rfl rfl hg2
  refine ⟨by norm_num, by norm_num, ?_, ?_, hl2, ?_, ?_, ?_⟩
  · rw [hrec]
    simp only [Option.map_some, Option.map_some']
    rw [hparts.2]
  · rw [hrec]
    simp only [Option.map_some, Option.map_some']
    intro h
    exact hparts.1 (Option.some_injective _ h)
  · rw [hg2, Option.map_some', hb.1]
  · rw [hg2, Option.map_some', hb.2]
  · exact volume_fields_amended.2.2 _ _ h2' hl2 rfl

end Trading
